import Mathlib

/-!
Shallow embedding of the TFTP client in `final_project.py`.

The client is a single script: it builds TFTP packets with `struct.pack`,
sends them over one UDP socket with a five second receive timeout, and
drives one GET or one PUT transfer in a `while True` loop.  The pure
packet-building code is embedded as functions on byte lists; the two
transfer loops are embedded as step functions over explicit state records,
one loop iteration consuming one external event (a received datagram or a
socket timeout).  Machine integers are `Nat` with explicit range checks
where `struct.pack` imposes them.
-/

namespace TFTP

/-- A byte string: a list of byte values. -/
abbrev Bytes := List Nat

/-- The two-byte big-endian encoding that `struct.pack` produces for a
nonnegative 16-bit value (format character `h`, network byte order). -/
def toBytesBE2 (n : Nat) : Bytes := [n / 256 % 256, n % 256]

/-- `int.from_bytes(bs, 'big')`: big-endian unsigned interpretation of a
byte slice (the empty slice yields 0, as in Python). -/
def int_from_bytes (bs : Bytes) : Nat := bs.foldl (fun a b => a * 256 + b) 0

/-- `struct.pack` of one value with the signed 16-bit format character `h`,
applied to a nonnegative argument as the client always does: it succeeds
exactly on 0..32767 and raises `struct.error` (modelled as `none`) on any
larger value. -/
def packh (n : Nat) : Option Bytes :=
  if n ≤ 32767 then some (toBytesBE2 n) else none

/-- `struct.pack` with format string `>hh` on two nonnegative values. -/
def pack_hh (a b : Nat) : Option Bytes :=
  match packh a, packh b with
  | some x, some y => some (x ++ y)
  | _, _ => none

/-- The request message built inside `send_request`:
`pack(f'>h{len(filename)}sB{len(mode)}sB', opcode, filename, 0, mode, 0)`,
that is opcode (2 bytes big-endian), filename bytes, a zero byte, mode
bytes, a zero byte.  The opcodes passed are the literals 1 and 2. -/
def send_request_bytes (opcode : Nat) (filename mode : Bytes) : Bytes :=
  toBytesBE2 opcode ++ filename ++ [0] ++ mode ++ [0]

/-- The ACK message built inside `send_ack`:
`pack('>hh', OPCODE['ACK'], block_number)`; `none` models the
`struct.error` raised when the block number exceeds 32767. -/
def send_ack_bytes (block_number : Nat) : Option Bytes :=
  pack_hh 4 block_number

/-- The DATA packet built in the put loop:
`pack('>hh', OPCODE['DATA'], block_number) + file_block`. -/
def data_packet_bytes (block_number : Nat) (file_block : Bytes) : Option Bytes :=
  match pack_hh 3 block_number with
  | some h => some (h ++ file_block)
  | none => none

/-- `ERROR_CODE.get(error_code, 'Unknown error')`: the error-code table of
the script with its default. -/
def ERROR_CODE_get (c : Nat) : String :=
  if c = 0 then "Not defined, see error message (if any)."
  else if c = 1 then "File not found."
  else if c = 2 then "Access violation."
  else if c = 3 then "Disk full or allocation exceeded."
  else if c = 4 then "Illegal TFTP operation."
  else if c = 5 then "Unknown transfer ID."
  else if c = 6 then "File already exists."
  else if c = 7 then "No such user."
  else "Unknown error"

/-- Terminal and non-terminal situations of the get loop.  The two crash
statuses model unhandled Python exceptions: `crashedNameError` is the
`NameError` raised when `len(file_block)` is evaluated before `file_block`
was ever assigned, `crashedStructError` the `struct.error` raised by
`send_ack` on a block number above 32767. -/
inductive GetStatus
| running
| complete
| failed
| crashedNameError
| crashedStructError
deriving DecidableEq

/-- The mutable state of the get branch: the expected block number, the
bytes written to the destination file, the current value of the local
variable `file_block` (`none` while it is still unassigned), whether the
destination file was removed, the reported error message, whether the
destination file handle was closed, and the loop status. -/
structure GetState where
  expected_block_number : Nat
  written : Bytes
  file_block : Option Bytes
  fileDeleted : Bool
  errorMessage : Option String
  fileClosed : Bool
  status : GetStatus
deriving DecidableEq

/-- One external event seen by a transfer loop: a datagram arriving from
some sender address, or a socket timeout. -/
inductive GetEvent
| recv (data : Bytes) (sender : Nat)
| timeout
deriving DecidableEq

/-- One iteration of the get `while True` loop: `sock.recvfrom(516)`
truncates the datagram to 516 bytes; a DATA packet with the expected block
number is acknowledged to its sender and written; the completion check
`len(file_block) < BLOCK_SIZE` runs for every DATA packet, accepted or
not; an ERROR packet prints the translated message, closes and removes the
destination file and breaks; a timeout resends the original read request
to the original server address.  The second component lists the datagrams
sent during the iteration with their destination addresses. -/
def getStep (filename mode : Bytes) (server_address : Nat) (s : GetState)
    (e : GetEvent) : GetState × List (Bytes × Nat) :=
  match e with
  | .timeout => (s, [(send_request_bytes 1 filename mode, server_address)])
  | .recv data0 sender =>
    let data := data0.take 516
    let opcode := int_from_bytes (data.take 2)
    if opcode = 3 then
      let block_number := int_from_bytes ((data.drop 2).take 2)
      if block_number = s.expected_block_number then
        match send_ack_bytes block_number with
        | none => ({ s with status := .crashedStructError }, [])
        | some ack =>
          let fb := data.drop 4
          ({ s with file_block := some fb,
                    written := s.written ++ fb,
                    expected_block_number := s.expected_block_number + 1,
                    status := if fb.length < 512 then .complete else s.status },
           [(ack, sender)])
      else
        match s.file_block with
        | none => ({ s with status := .crashedNameError }, [])
        | some fb =>
          if fb.length < 512 then ({ s with status := .complete }, [])
          else (s, [])
    else if opcode = 5 then
      let error_code := int_from_bytes ((data.drop 2).take 2)
      ({ s with errorMessage := some (ERROR_CODE_get error_code),
                fileClosed := true, fileDeleted := true, status := .failed }, [])
    else (s, [])

/-- Run the get loop over a finite list of events, stopping as soon as the
loop has exited (status no longer `running`); remaining events are not
consumed, as the script has stopped receiving. -/
def getSteps (filename mode : Bytes) (server_address : Nat) :
    GetState → List GetEvent → GetState × List (Bytes × Nat)
  | s, [] => (s, [])
  | s, e :: es =>
    if s.status = .running then
      let r := getStep filename mode server_address s e
      let r2 := getSteps filename mode server_address r.1 es
      (r2.1, r.2 ++ r2.2)
    else (s, [])

/-- State at entry of the get loop: `expected_block_number = 1`, nothing
written, `file_block` unassigned. -/
def getInit : GetState :=
  { expected_block_number := 1, written := [], file_block := none,
    fileDeleted := false, errorMessage := none, fileClosed := false,
    status := .running }

/-- The `file.close()` after the loop: it runs only when the loop exited
by `break` (completion or error), not when an unhandled exception
propagated out of the loop and not while the loop is still waiting. -/
def closeAfterLoop (s : GetState) : GetState :=
  if s.status = .complete ∨ s.status = .failed then { s with fileClosed := true } else s

/-- The whole get branch: send the read request to the server address,
open the destination file, run the loop on the events, close after the
loop.  The sent list starts with the initial read request. -/
def getRun (filename mode : Bytes) (server_address : Nat) (events : List GetEvent) :
    GetState × List (Bytes × Nat) :=
  let r := getSteps filename mode server_address getInit events
  (closeAfterLoop r.1, (send_request_bytes 1 filename mode, server_address) :: r.2)

/-- Statuses of the put loop; `crashedStructError` models the
`struct.error` raised when `pack('>hh', 3, block_number)` is given a block
number above 32767. -/
inductive PutStatus
| running
| complete
| crashedStructError
deriving DecidableEq

/-- The mutable state of the put loop: the file read position, the current
block number, the current `data_packet` value, the length of the current
`file_block`, and the loop status. -/
structure PutState where
  pos : Nat
  block_number : Nat
  data_packet : Bytes
  file_block_len : Nat
  status : PutStatus
deriving DecidableEq

/-- One external event seen by the put loop; the sender address of a
received datagram is discarded by the script (`ack, _ = sock.recvfrom(4)`). -/
inductive PutEvent
| recv (data : Bytes) (sender : Nat)
| timeout
deriving DecidableEq

/-- One iteration of the put `while True` loop: read the next chunk of up
to 512 bytes, increment the block number, build and send the DATA packet
to the original server address, then either interpret a received datagram
(truncated to 4 bytes by `recvfrom(4)`) or, on timeout, resend the same
DATA packet.  A matching ACK for a chunk shorter than 512 bytes breaks the
loop; any other received datagram, and any timeout, lets the loop continue
to the next chunk. -/
def putStep (fileData : Bytes) (server_address : Nat) (s : PutState) (e : PutEvent) :
    PutState × List (Bytes × Nat) :=
  let file_block := (fileData.drop s.pos).take 512
  let block_number := s.block_number + 1
  match data_packet_bytes block_number file_block with
  | none => ({ s with block_number := block_number, status := .crashedStructError }, [])
  | some data_packet =>
    let s1 : PutState :=
      { pos := s.pos + file_block.length, block_number := block_number,
        data_packet := data_packet, file_block_len := file_block.length,
        status := .running }
    match e with
    | .timeout => (s1, [(data_packet, server_address), (data_packet, server_address)])
    | .recv d _ =>
      let ack := d.take 4
      let ack_opcode := int_from_bytes (ack.take 2)
      let ack_block_number := int_from_bytes ((ack.drop 2).take 2)
      if ack_opcode = 4 ∧ ack_block_number = block_number ∧ file_block.length < 512 then
        ({ s1 with status := .complete }, [(data_packet, server_address)])
      else (s1, [(data_packet, server_address)])

/-- Run the put loop over a finite list of events, stopping once the loop
has exited. -/
def putSteps (fileData : Bytes) (server_address : Nat) :
    PutState → List PutEvent → PutState × List (Bytes × Nat)
  | s, [] => (s, [])
  | s, e :: es =>
    if s.status = .running then
      let r := putStep fileData server_address s e
      let r2 := putSteps fileData server_address r.1 es
      (r2.1, r.2 ++ r2.2)
    else (s, [])

/-- State at entry of the put loop: `block_number = 0`, nothing read. -/
def putInit : PutState :=
  { pos := 0, block_number := 0, data_packet := [], file_block_len := 0,
    status := .running }

/-- Result of `open(filename, 'rb')`: the file contents, or the
`FileNotFoundError` raised when the path does not exist. -/
inductive OpenResult
| ok (contents : Bytes)
| fileNotFound
deriving DecidableEq

/-- Observable outcome of the put branch: every datagram sent with its
destination, whether the file-not-found message was printed, whether the
`finally` clause raised `NameError`, whether the source file handle was
closed, and the final loop state when the loop was entered at all. -/
structure PutOutcome where
  sent : List (Bytes × Nat)
  reportedFileNotFound : Bool
  crashedNameError : Bool
  fileClosed : Bool
  finalState : Option PutState
deriving DecidableEq

/-- The whole put branch of the script.  The write request is sent first;
only then is the source file opened.  When the open raises
`FileNotFoundError` the handler prints the error message and the `finally`
clause evaluates `file.close()` with the name `file` unbound, raising
`NameError`, so no handle exists and none is closed.  When the open
succeeds, the loop runs; the `finally` clause closes the file whenever the
loop is left, by `break` or by a propagating exception, but not while the
loop is still waiting for events. -/
def putTransfer (filename mode : Bytes) (server_address : Nat)
    (openResult : OpenResult) (events : List PutEvent) : PutOutcome :=
  let wrq := (send_request_bytes 2 filename mode, server_address)
  match openResult with
  | .fileNotFound =>
    { sent := [wrq], reportedFileNotFound := true, crashedNameError := true,
      fileClosed := false, finalState := none }
  | .ok contents =>
    let r := putSteps contents server_address putInit events
    { sent := wrq :: r.2, reportedFileNotFound := false, crashedNameError := false,
      fileClosed := if r.1.status = .running then false else true,
      finalState := some r.1 }

/-- A DATA packet as a compliant server puts it on the wire: opcode 3,
two-byte big-endian block number, payload. -/
def dataPacketWire (block : Nat) (chunk : Bytes) : Bytes :=
  [0, 3] ++ toBytesBE2 block ++ chunk

/-- The four ACK bytes the client sends for a given block number. -/
def ackWire (block : Nat) : Bytes := [0, 4] ++ toBytesBE2 block

/-- The event trace of a compliant server delivering consecutive DATA
blocks, starting at a given block number, all from one sender address. -/
def canonicalEvents (start : Nat) (chunks : List Bytes) (sender : Nat) : List GetEvent :=
  match chunks with
  | [] => []
  | c :: cs => .recv (dataPacketWire start c) sender :: canonicalEvents (start + 1) cs sender

/-- The ACK datagrams the client sends for consecutive block numbers. -/
def ackOutputs (start count sender : Nat) : List (Bytes × Nat) :=
  match count with
  | 0 => []
  | n + 1 => (ackWire start, sender) :: ackOutputs (start + 1) n sender

/-- The value of the `file_block` variable after a list of accepted
chunks, starting from a previous value. -/
def lastChunk : List Bytes → Option Bytes → Option Bytes
  | [], fb => fb
  | c :: cs, _ => lastChunk cs (some c)

lemma int_from_bytes_two (a b : Nat) : int_from_bytes [a, b] = a * 256 + b := by
  simp [int_from_bytes]

lemma int_from_bytes_toBytesBE2 (n : Nat) (h : n ≤ 65535) :
    int_from_bytes (toBytesBE2 n) = n := by
  simp only [toBytesBE2, int_from_bytes_two]
  omega

lemma dataPacketWire_take_516 (b : Nat) (c : Bytes) (hc : c.length ≤ 512) :
    (dataPacketWire b c).take 516 = dataPacketWire b c := by
  apply List.take_of_length_le
  simp [dataPacketWire, toBytesBE2]
  omega

lemma dataPacketWire_take_2 (b : Nat) (c : Bytes) :
    (dataPacketWire b c).take 2 = [0, 3] := by
  simp [dataPacketWire, toBytesBE2]

lemma dataPacketWire_drop2_take2 (b : Nat) (c : Bytes) :
    ((dataPacketWire b c).drop 2).take 2 = toBytesBE2 b := by
  simp [dataPacketWire, toBytesBE2]

lemma dataPacketWire_drop_4 (b : Nat) (c : Bytes) :
    (dataPacketWire b c).drop 4 = c := by
  simp [dataPacketWire, toBytesBE2]

lemma send_ack_bytes_of_le (b : Nat) (h : b ≤ 32767) :
    send_ack_bytes b = some (ackWire b) := by
  simp [send_ack_bytes, pack_hh, packh, ackWire, toBytesBE2, h]

lemma send_ack_bytes_of_gt (b : Nat) (h : 32768 ≤ b) :
    send_ack_bytes b = none := by
  have hb : ¬ b ≤ 32767 := by omega
  simp [send_ack_bytes, pack_hh, packh, hb]

lemma getStep_timeout (f m : Bytes) (a : Nat) (s : GetState) :
    getStep f m a s .timeout = (s, [(send_request_bytes 1 f m, a)]) := rfl

lemma getStep_accept (f m : Bytes) (a sender : Nat) (s : GetState) (b : Nat) (c : Bytes)
    (hb : b = s.expected_block_number) (hle : b ≤ 32767) (hc : c.length ≤ 512) :
    getStep f m a s (.recv (dataPacketWire b c) sender) =
      ({ s with file_block := some c, written := s.written ++ c,
                expected_block_number := s.expected_block_number + 1,
                status := if c.length < 512 then .complete else s.status },
       [(ackWire b, sender)]) := by
  subst hb
  simp only [getStep, dataPacketWire_take_516 _ _ hc, dataPacketWire_take_2,
    dataPacketWire_drop2_take2, dataPacketWire_drop_4, int_from_bytes_two,
    int_from_bytes_toBytesBE2 _ (by omega : s.expected_block_number ≤ 65535),
    send_ack_bytes_of_le _ hle]
  norm_num

lemma getStep_accept_crash (f m : Bytes) (a sender : Nat) (s : GetState) (b : Nat) (c : Bytes)
    (hb : b = s.expected_block_number) (h32 : 32768 ≤ b) (hb65 : b ≤ 65535)
    (hc : c.length ≤ 512) :
    getStep f m a s (.recv (dataPacketWire b c) sender) =
      ({ s with status := .crashedStructError }, []) := by
  subst hb
  simp only [getStep, dataPacketWire_take_516 _ _ hc, dataPacketWire_take_2,
    dataPacketWire_drop2_take2, dataPacketWire_drop_4, int_from_bytes_two,
    int_from_bytes_toBytesBE2 _ hb65, send_ack_bytes_of_gt _ h32]
  norm_num

lemma getSteps_nil (f m : Bytes) (a : Nat) (s : GetState) :
    getSteps f m a s [] = (s, []) := rfl

lemma getSteps_cons_running (f m : Bytes) (a : Nat) (s : GetState) (e : GetEvent)
    (es : List GetEvent) (hs : s.status = .running) :
    getSteps f m a s (e :: es) =
      ((getSteps f m a (getStep f m a s e).1 es).1,
       (getStep f m a s e).2 ++ (getSteps f m a (getStep f m a s e).1 es).2) := by
  simp [getSteps, hs]

lemma getSteps_not_running (f m : Bytes) (a : Nat) (s : GetState) (es : List GetEvent)
    (hs : s.status ≠ .running) :
    getSteps f m a s es = (s, []) := by
  cases es <;> simp [getSteps, hs]

lemma getSteps_append (f m : Bytes) (a : Nat) (s : GetState) (es es' : List GetEvent) :
    getSteps f m a s (es ++ es') =
      ((getSteps f m a (getSteps f m a s es).1 es').1,
       (getSteps f m a s es).2 ++ (getSteps f m a (getSteps f m a s es).1 es').2) := by
  induction es generalizing s with
  | nil => simp [getSteps_nil]
  | cons e es ih =>
    by_cases hs : s.status = .running
    · rw [List.cons_append, getSteps_cons_running f m a s e (es ++ es') hs,
        getSteps_cons_running f m a s e es hs, ih]
      simp
    · simp [getSteps_not_running f m a s _ hs]

lemma canonicalEvents_nil (start sender : Nat) : canonicalEvents start [] sender = [] := rfl

lemma canonicalEvents_cons (start : Nat) (c : Bytes) (cs : List Bytes) (sender : Nat) :
    canonicalEvents start (c :: cs) sender =
      .recv (dataPacketWire start c) sender :: canonicalEvents (start + 1) cs sender := rfl

lemma canonicalEvents_append (sender : Nat) (xs ys : List Bytes) :
    ∀ start, canonicalEvents start (xs ++ ys) sender =
      canonicalEvents start xs sender ++ canonicalEvents (start + xs.length) ys sender := by
  induction xs with
  | nil => intro start; simp [canonicalEvents_nil]
  | cons x xs ih =>
    intro start
    rw [List.cons_append, canonicalEvents_cons, canonicalEvents_cons, ih (start + 1),
      List.cons_append, List.length_cons]
    have h2 : start + 1 + xs.length = start + (xs.length + 1) := by omega
    rw [h2]

lemma ackOutputs_zero (start sender : Nat) : ackOutputs start 0 sender = [] := rfl

lemma ackOutputs_succ (start n sender : Nat) :
    ackOutputs start (n + 1) sender =
      (ackWire start, sender) :: ackOutputs (start + 1) n sender := rfl

/-- Running the get loop on a compliant server trace of full 512-byte
blocks numbered from the expected block number onward: every block is
accepted and acknowledged once to its sender, the written bytes grow by
the concatenation of the chunks, and the loop stays running. -/
lemma getSteps_canonical_full (f m : Bytes) (a sender : Nat) :
    ∀ (full : List Bytes) (s : GetState),
      s.status = .running →
      (∀ c ∈ full, c.length = 512) →
      s.expected_block_number + full.length ≤ 32768 →
      getSteps f m a s (canonicalEvents s.expected_block_number full sender) =
        ({ s with expected_block_number := s.expected_block_number + full.length,
                  written := s.written ++ full.flatten,
                  file_block := lastChunk full s.file_block },
         ackOutputs s.expected_block_number full.length sender) := by
  intro full
  induction full with
  | nil =>
    intro s hs _ _
    simp [canonicalEvents, getSteps_nil, ackOutputs, lastChunk]
  | cons c cs ih =>
    intro s hs hfull hbound
    have hc : c.length = 512 := hfull c (List.mem_cons_self c cs)
    have hle : s.expected_block_number ≤ 32767 := by
      simp only [List.length_cons] at hbound; omega
    rw [canonicalEvents, getSteps_cons_running f m a s _ _ hs,
      getStep_accept f m a sender s _ c rfl hle (by omega)]
    have hlt : ¬ c.length < 512 := by omega
    simp only [if_neg hlt]
    set s1 : GetState :=
      { s with file_block := some c, written := s.written ++ c,
               expected_block_number := s.expected_block_number + 1,
               status := s.status } with hs1
    have hexp1 : s.expected_block_number + 1 = s1.expected_block_number := by
      simp [hs1]
    rw [hexp1, ih s1 (by simp [hs1, hs]) (fun d hd => hfull d (List.mem_cons_of_mem c hd))
      (by simp only [hs1, List.length_cons] at hbound ⊢; omega)]
    simp only [hs1, List.length_cons, List.flatten_cons, lastChunk, ackOutputs_succ,
      List.singleton_append]
    have h1 : s.expected_block_number + 1 + cs.length =
        s.expected_block_number + (cs.length + 1) := by omega
    rw [h1, List.append_assoc]

lemma getSteps_canonical_full_start (f m : Bytes) (a sender start : Nat)
    (full : List Bytes) (s : GetState)
    (hs : s.status = .running) (hstart : s.expected_block_number = start)
    (hfull : ∀ c ∈ full, c.length = 512)
    (hbound : start + full.length ≤ 32768) :
    getSteps f m a s (canonicalEvents start full sender) =
      ({ s with expected_block_number := start + full.length,
                written := s.written ++ full.flatten,
                file_block := lastChunk full s.file_block },
       ackOutputs start full.length sender) := by
  subst hstart
  exact getSteps_canonical_full f m a sender full s hs hfull hbound

lemma ackOutputs_snoc (sender : Nat) (n : Nat) :
    ∀ start, ackOutputs start n sender ++ [(ackWire (start + n), sender)] =
      ackOutputs start (n + 1) sender := by
  induction n with
  | zero => intro start; simp [ackOutputs_zero, ackOutputs_succ]
  | succ n ih =>
    intro start
    rw [ackOutputs_succ, List.cons_append]
    have h : start + (n + 1) = start + 1 + n := by omega
    rw [h, ih (start + 1), ackOutputs_succ start (n + 1) sender]

lemma getStep_error (f m : Bytes) (a sender : Nat) (s : GetState) (data : Bytes)
    (hop : int_from_bytes ((data.take 516).take 2) = 5) :
    getStep f m a s (.recv data sender) =
      ({ s with errorMessage :=
                  some (ERROR_CODE_get (int_from_bytes (((data.take 516).drop 2).take 2))),
                fileClosed := true, fileDeleted := true, status := .failed }, []) := by
  simp only [getStep, hop]
  norm_num

lemma data_packet_bytes_of_le (b : Nat) (c : Bytes) (h : b ≤ 32767) :
    data_packet_bytes b c = some ([0, 3] ++ toBytesBE2 b ++ c) := by
  have h3 : toBytesBE2 3 = [0, 3] := by simp [toBytesBE2]
  simp [data_packet_bytes, pack_hh, packh, h, h3]

lemma data_packet_bytes_of_gt (b : Nat) (c : Bytes) (h : 32768 ≤ b) :
    data_packet_bytes b c = none := by
  have hb : ¬ b ≤ 32767 := by omega
  simp [data_packet_bytes, pack_hh, packh, hb]

lemma putStep_timeout_eq (fileData : Bytes) (a : Nat) (s : PutState)
    (h : s.block_number + 1 ≤ 32767) :
    putStep fileData a s .timeout =
      ({ pos := s.pos + ((fileData.drop s.pos).take 512).length,
         block_number := s.block_number + 1,
         data_packet := [0, 3] ++ toBytesBE2 (s.block_number + 1) ++ (fileData.drop s.pos).take 512,
         file_block_len := ((fileData.drop s.pos).take 512).length,
         status := .running },
       [([0, 3] ++ toBytesBE2 (s.block_number + 1) ++ (fileData.drop s.pos).take 512, a),
        ([0, 3] ++ toBytesBE2 (s.block_number + 1) ++ (fileData.drop s.pos).take 512, a)]) := by
  simp only [putStep, data_packet_bytes_of_le _ _ h]

/-- C1: the claim says a PUT on a missing local file performs zero network
sends; in the script the write request is sent before the file is opened,
so exactly one datagram has gone out when the FileNotFoundError is
reported. -/
theorem C1_counterexample :
    (putTransfer [102] [111, 99, 116, 101, 116] 0 .fileNotFound []).sent ≠ [] ∧
    (putTransfer [102] [111, 99, 116, 101, 116] 0 .fileNotFound []).sent.length = 1 ∧
    (putTransfer [102] [111, 99, 116, 101, 116] 0 .fileNotFound []).reportedFileNotFound
      = true := by
  refine ⟨by decide, rfl, rfl⟩

/-- C1 amended: for a PUT whose source file cannot be opened, exactly one
datagram — the write request — is sent before the failure; no DATA packet
is ever sent, a file-not-found condition is reported, and the cleanup
clause then raises NameError without any handle to close. -/
theorem C1_amended (filename mode : Bytes) (server_address : Nat) (events : List PutEvent) :
    putTransfer filename mode server_address .fileNotFound events =
      { sent := [(send_request_bytes 2 filename mode, server_address)],
        reportedFileNotFound := true, crashedNameError := true,
        fileClosed := false, finalState := none } := rfl

/-- C4: the claim says that after a timeout the engine waits again for an
ACK before reading the next chunk; in the script the resend is followed
directly by the next loop iteration, so with two timeouts and no ACK at
all the block number still advances and a block-2 DATA packet is sent. -/
theorem C4_counterexample :
    (putTransfer [102] [109] 0 (.ok [1, 2, 3]) [.timeout, .timeout]).sent =
      [(send_request_bytes 2 [102] [109], 0),
       ([0, 3, 0, 1, 1, 2, 3], 0), ([0, 3, 0, 1, 1, 2, 3], 0),
       ([0, 3, 0, 2], 0), ([0, 3, 0, 2], 0)] ∧
    (putTransfer [102] [109] 0 (.ok [1, 2, 3]) [.timeout, .timeout]).finalState =
      some { pos := 3, block_number := 2, data_packet := [0, 3, 0, 2],
             file_block_len := 0, status := .running } := by
  exact ⟨rfl, rfl⟩

/-- C4 amended: on a receive timeout the put loop resends the exact same
DATA packet (same block number, same chunk, byte-for-byte) once, and then
immediately proceeds: the next iteration reads the next chunk and
increments the block number without waiting for an ACK of the resent
block; there is no retry limit. -/
theorem C4_amended (fileData : Bytes) (server_address : Nat) (s : PutState)
    (h : s.block_number + 1 ≤ 32767) :
    (putStep fileData server_address s .timeout).2 =
      [([0, 3] ++ toBytesBE2 (s.block_number + 1) ++ (fileData.drop s.pos).take 512,
        server_address),
       ([0, 3] ++ toBytesBE2 (s.block_number + 1) ++ (fileData.drop s.pos).take 512,
        server_address)] ∧
    (putStep fileData server_address s .timeout).1.block_number = s.block_number + 1 ∧
    (putStep fileData server_address s .timeout).1.pos =
      s.pos + ((fileData.drop s.pos).take 512).length ∧
    (putStep fileData server_address s .timeout).1.status = .running := by
  rw [putStep_timeout_eq fileData server_address s h]
  exact ⟨rfl, rfl, rfl, rfl⟩

/-- C4 witness: the amended behavior at a one-byte file, first block,
first timeout. -/
theorem C4_amended_witness :
    (putStep [5] 0 putInit .timeout).2 = [([0, 3, 0, 1, 5], 0), ([0, 3, 0, 1, 5], 0)] ∧
    (putStep [5] 0 putInit .timeout).1.block_number = 1 ∧
    (putStep [5] 0 putInit .timeout).1.pos = 1 ∧
    (putStep [5] 0 putInit .timeout).1.status = .running :=
  C4_amended [5] 0 putInit (by decide)

/-- C5: the claim says the ACK and DATA encodings accept every block
number in 0..65535; `pack` is called with the signed format character, so
block number 40000 raises struct.error in both encodings. -/
theorem C5_counterexample :
    send_ack_bytes 40000 = none ∧ data_packet_bytes 40000 [7] = none ∧
    (40000 : Nat) ≤ 65535 := by
  exact ⟨by decide, by decide, by decide⟩

/-- C5 amended: the ACK and DATA encodings use the signed 16-bit pack
format: they accept exactly block numbers 0..32767, producing big-endian
bytes, and raise struct.error on 32768..65535; and on a GET the expected
block number increments by one per accepted block with no modulo-65536
wrap. -/
theorem C5_amended :
    (∀ n, n ≤ 32767 → send_ack_bytes n = some ([0, 4] ++ toBytesBE2 n)) ∧
    (∀ n, 32768 ≤ n → send_ack_bytes n = none) ∧
    (∀ n c, n ≤ 32767 → data_packet_bytes n c = some ([0, 3] ++ toBytesBE2 n ++ c)) ∧
    (∀ n c, 32768 ≤ n → data_packet_bytes n c = none) ∧
    (∀ (f m : Bytes) (a sender : Nat) (s : GetState) (b : Nat) (ch : Bytes),
      b = s.expected_block_number → b ≤ 32767 → ch.length ≤ 512 →
      (getStep f m a s (.recv (dataPacketWire b ch) sender)).1.expected_block_number =
        s.expected_block_number + 1) := by
  refine ⟨?_, ?_, ?_, ?_, ?_⟩
  · intro n h; exact send_ack_bytes_of_le n h
  · intro n h; exact send_ack_bytes_of_gt n h
  · intro n c h; exact data_packet_bytes_of_le n c h
  · intro n c h; exact data_packet_bytes_of_gt n c h
  · intro f m a sender s b ch hb hle hc
    rw [getStep_accept f m a sender s b ch hb hle hc]

/-- C5 witness: concrete block numbers on both sides of the signed
boundary, and one accepted GET block incrementing the expectation. -/
theorem C5_amended_witness :
    send_ack_bytes 7 = some ([0, 4] ++ toBytesBE2 7) ∧
    send_ack_bytes 50000 = none ∧
    data_packet_bytes 7 [9] = some ([0, 3] ++ toBytesBE2 7 ++ [9]) ∧
    data_packet_bytes 50000 [9] = none ∧
    (getStep [1] [2] 3 getInit (.recv (dataPacketWire 1 []) 4)).1.expected_block_number = 2 :=
  ⟨C5_amended.1 7 (by decide), C5_amended.2.1 50000 (by decide),
   C5_amended.2.2.1 7 [9] (by decide), C5_amended.2.2.2.1 50000 [9] (by decide),
   C5_amended.2.2.2.2 [1] [2] 3 4 getInit 1 [] rfl (by decide) (by decide)⟩

/-- C7: after a receive timeout the engine re-sends its prior outbound
packet byte-for-byte: the GET timeout handler rebuilds and sends the same
read-request bytes as the initial request, and the PUT timeout handler
sends the very `data_packet` value whose ACK timed out, so the two sends
of the timed-out iteration are identical. -/
theorem C7_confirmed :
    (∀ (f m : Bytes) (a : Nat) (s : GetState),
      getStep f m a s .timeout = (s, [(send_request_bytes 1 f m, a)])) ∧
    (∀ (f m : Bytes) (a : Nat) (events : List GetEvent),
      (getRun f m a events).2.head? = some (send_request_bytes 1 f m, a)) ∧
    (∀ (fileData : Bytes) (a : Nat) (s : PutState),
      ((putStep fileData a s .timeout).2).get? 0 = ((putStep fileData a s .timeout).2).get? 1) := by
  refine ⟨fun f m a s => rfl, fun f m a es => rfl, fun fileData a s => ?_⟩
  rcases h : data_packet_bytes (s.block_number + 1) ((fileData.drop s.pos).take 512)
    with _ | dp <;> simp [putStep, h]

/-- C8: the script's `finally` clause is meant to close the source file on
every exit path of a PUT, but on the path where the open itself raised
FileNotFoundError the name `file` is unbound, so the clause raises
NameError and nothing is closed, while on paths that entered the loop the
file is indeed closed. -/
theorem C8_code_evaluation :
    (putTransfer [102] [109] 0 .fileNotFound []).crashedNameError = true ∧
    (putTransfer [102] [109] 0 .fileNotFound []).fileClosed = false ∧
    (putTransfer [102] [109] 0 (.ok []) [.recv [0, 4, 0, 1] 9]).fileClosed = true ∧
    (putTransfer [102] [109] 0 (.ok []) [.recv [0, 4, 0, 1] 9]).finalState =
      some { pos := 0, block_number := 1, data_packet := [0, 3, 0, 1],
             file_block_len := 0, status := .complete } := by
  exact ⟨rfl, rfl, rfl, rfl⟩

/-- C2: the claim says an ERROR packet is terminal for every transfer; on
a PUT the ACK-wait checks only for opcode 4, so an ERROR datagram fails
the check, the loop stays running and the next iteration sends the
block-2 DATA packet. -/
theorem C2_counterexample :
    (putTransfer [102] [109] 0 (.ok [1, 2, 3]) [.recv [0, 5, 0, 1] 9, .timeout]).sent =
      [(send_request_bytes 2 [102] [109], 0),
       ([0, 3, 0, 1, 1, 2, 3], 0), ([0, 3, 0, 2], 0), ([0, 3, 0, 2], 0)] ∧
    (putTransfer [102] [109] 0 (.ok [1, 2, 3]) [.recv [0, 5, 0, 1] 9, .timeout]).finalState =
      some { pos := 3, block_number := 2, data_packet := [0, 3, 0, 2],
             file_block_len := 0, status := .running } := by
  exact ⟨rfl, rfl⟩

/-- C2 amended: on a GET an ERROR packet is terminal — the step reports
the translated message, deletes the file and fails, and a failed session
processes nothing further; on a PUT a received ERROR packet is not
recognized: it merely fails the ACK comparison and the loop stays running
and advances to the next data block. -/
theorem C2_amended :
    (∀ (f m : Bytes) (a sender : Nat) (s : GetState) (data : Bytes),
      int_from_bytes ((data.take 516).take 2) = 5 →
      getStep f m a s (.recv data sender) =
        ({ s with errorMessage :=
                    some (ERROR_CODE_get (int_from_bytes (((data.take 516).drop 2).take 2))),
                  fileClosed := true, fileDeleted := true, status := .failed }, [])) ∧
    (∀ (f m : Bytes) (a : Nat) (s : GetState) (events : List GetEvent),
      s.status = .failed → getSteps f m a s events = (s, [])) ∧
    (∀ (fileData : Bytes) (a sender : Nat) (s : PutState) (d : Bytes),
      s.block_number + 1 ≤ 32767 →
      int_from_bytes ((d.take 4).take 2) = 5 →
      (putStep fileData a s (.recv d sender)).1.status = .running) := by
  refine ⟨fun f m a sender s data hop => getStep_error f m a sender s data hop,
    fun f m a s es hs => getSteps_not_running f m a s es (by rw [hs]; decide),
    fun fileData a sender s d h hop => ?_⟩
  simp only [putStep, data_packet_bytes_of_le _ _ h, hop]
  norm_num

/-- C2 witness: a concrete ERROR packet in a GET step, a failed session
consuming no events, and a concrete ERROR packet during a PUT ACK-wait. -/
theorem C2_amended_witness :
    getStep [1] [2] 3 getInit (.recv [0, 5, 0, 1] 4) =
      ({ getInit with errorMessage := some "File not found.",
                      fileClosed := true, fileDeleted := true, status := .failed }, []) ∧
    getSteps [1] [2] 3 { getInit with status := .failed } [.timeout] =
      ({ getInit with status := .failed }, []) ∧
    (putStep [] 0 putInit (.recv [0, 5, 0, 1] 9)).1.status = .running :=
  ⟨C2_amended.1 [1] [2] 3 4 getInit [0, 5, 0, 1] rfl,
   C2_amended.2.1 [1] [2] 3 { getInit with status := .failed } [.timeout] rfl,
   C2_amended.2.2 [] 0 9 putInit [0, 5, 0, 1] (by decide) rfl⟩

/-- C3: the claim says every packet sent after the server's first reply is
addressed to that reply's sender; in the script a GET timeout always
resends the read request to the original server address, as the third
sent datagram of this run shows (destination 0, not the learned 9). -/
theorem C3_counterexample :
    (getRun [102] [109] 0
        [.recv (dataPacketWire 1 (List.replicate 512 3)) 9, .timeout]).2 =
      [(send_request_bytes 1 [102] [109], 0),
       (ackWire 1, 9),
       (send_request_bytes 1 [102] [109], 0)] ∧
    (0 : Nat) ≠ 9 := by
  constructor
  · have hlen : (List.replicate (512 : Nat) (3 : Nat)).length ≤ 512 := by
      simp only [List.length_replicate]
      exact le_rfl
    simp only [getRun]
    rw [getSteps_cons_running [102] [109] 0 getInit _ _ rfl,
      getStep_accept [102] [109] 0 9 getInit 1 (List.replicate 512 3) rfl (by norm_num) hlen]
    simp only [List.length_replicate]
    rw [if_neg (lt_irrefl 512)]
    rw [getSteps_cons_running [102] [109] 0 _ _ _ rfl, getStep_timeout, getSteps_nil]
    rfl
  · decide

/-- C3 amended: only the per-block ACK of a GET is addressed to the sender
of the datagram being acknowledged; the GET timeout retransmission of the
request is addressed to the original server address, and every datagram
of a PUT is addressed to the original server address, the reply senders
being ignored. -/
theorem C3_amended :
    (∀ (f m : Bytes) (a : Nat) (s : GetState),
      getStep f m a s .timeout = (s, [(send_request_bytes 1 f m, a)])) ∧
    (∀ (f m : Bytes) (a : Nat) (s : GetState) (data : Bytes) (sender : Nat)
      (p : Bytes × Nat), p ∈ (getStep f m a s (.recv data sender)).2 → p.2 = sender) ∧
    (∀ (fileData : Bytes) (a : Nat) (s : PutState) (e : PutEvent) (p : Bytes × Nat),
      p ∈ (putStep fileData a s e).2 → p.2 = a) := by
  refine ⟨fun f m a s => rfl, ?_, ?_⟩
  · intro f m a s data sender p hp
    simp only [getStep] at hp
    repeat' split at hp
    all_goals simp at hp
    all_goals simp [hp]
  · intro fileData a s e p hp
    simp only [putStep] at hp
    repeat' split at hp
    all_goals simp at hp
    all_goals simp [hp]

/-- C3 witness: the timeout resend goes to the original address, a
concrete GET ACK goes to the sender of the acknowledged datagram, and a
concrete PUT send goes to the original address. -/
theorem C3_amended_witness :
    getStep [1] [2] 3 getInit .timeout = (getInit, [(send_request_bytes 1 [1] [2], 3)]) ∧
    Prod.snd (ackWire 1, (9 : Nat)) = 9 ∧
    Prod.snd (([0, 3, 0, 1] : Bytes), (7 : Nat)) = 7 :=
  ⟨C3_amended.1 [1] [2] 3 getInit,
   C3_amended.2.1 [1] [2] 3 getInit (dataPacketWire 1 []) 9 (ackWire 1, 9) (by decide),
   C3_amended.2.2 [] 7 putInit .timeout ([0, 3, 0, 1], 7) (by decide)⟩

/-- C9: during a GET an ERROR packet with code 1 makes the engine report
the message File not found., close and delete the partially written
destination file and fail; the error translator maps codes 0..7 to their
fixed strings and every other code to Unknown error. -/
theorem C9_confirmed :
    ERROR_CODE_get 0 = "Not defined, see error message (if any)." ∧
    ERROR_CODE_get 1 = "File not found." ∧
    ERROR_CODE_get 2 = "Access violation." ∧
    ERROR_CODE_get 3 = "Disk full or allocation exceeded." ∧
    ERROR_CODE_get 4 = "Illegal TFTP operation." ∧
    ERROR_CODE_get 5 = "Unknown transfer ID." ∧
    ERROR_CODE_get 6 = "File already exists." ∧
    ERROR_CODE_get 7 = "No such user." ∧
    (∀ c, 8 ≤ c → ERROR_CODE_get c = "Unknown error") ∧
    (∀ (f m : Bytes) (a sender : Nat) (s : GetState) (msg : Bytes),
      getStep f m a s (.recv ([0, 5, 0, 1] ++ msg) sender) =
        ({ s with errorMessage := some "File not found.", fileClosed := true,
                  fileDeleted := true, status := .failed }, [])) := by
  refine ⟨rfl, rfl, rfl, rfl, rfl, rfl, rfl, rfl, ?_, ?_⟩
  · intro c hc
    have h0 : c ≠ 0 := by omega
    have h1 : c ≠ 1 := by omega
    have h2 : c ≠ 2 := by omega
    have h3 : c ≠ 3 := by omega
    have h4 : c ≠ 4 := by omega
    have h5 : c ≠ 5 := by omega
    have h6 : c ≠ 6 := by omega
    have h7 : c ≠ 7 := by omega
    simp [ERROR_CODE_get, h0, h1, h2, h3, h4, h5, h6, h7]
  · intro f m a sender s msg
    have h516 : (([0, 5, 0, 1] ++ msg) : Bytes).take 516 =
        0 :: 5 :: 0 :: 1 :: msg.take 512 := rfl
    have hop : int_from_bytes (((([0, 5, 0, 1] ++ msg) : Bytes).take 516).take 2) = 5 := by
      rw [h516]; rfl
    rw [getStep_error f m a sender s _ hop, h516]
    rfl

/-- C9 witness: the general unknown-code clause at code 99, together with
one concrete ERROR step. -/
theorem C9_confirmed_witness :
    ERROR_CODE_get 99 = "Unknown error" ∧
    getStep [1] [2] 3 getInit (.recv ([0, 5, 0, 1] ++ [65, 66]) 4) =
      ({ getInit with errorMessage := some "File not found.", fileClosed := true,
                      fileDeleted := true, status := .failed }, []) :=
  ⟨C9_confirmed.2.2.2.2.2.2.2.2.1 99 (by decide),
   C9_confirmed.2.2.2.2.2.2.2.2.2 [1] [2] 3 4 getInit [65, 66]⟩

/-- C10: implicit claim — a DATA packet whose block number differs from
the expected one, received before any block has been accepted, makes the
completion check read the never-assigned `file_block`, so the program
raises an unhandled NameError and aborts; once a block has been accepted
the check is well defined and no NameError can occur. -/
theorem C10_confirmed :
    (∀ (f m : Bytes) (a sender : Nat) (s : GetState) (data : Bytes),
      s.file_block = none →
      int_from_bytes ((data.take 516).take 2) = 3 →
      int_from_bytes (((data.take 516).drop 2).take 2) ≠ s.expected_block_number →
      getStep f m a s (.recv data sender) = ({ s with status := .crashedNameError }, [])) ∧
    (∀ (f m : Bytes) (a sender : Nat) (s : GetState) (data : Bytes) (fb : Bytes),
      s.status = .running →
      s.file_block = some fb →
      int_from_bytes ((data.take 516).take 2) = 3 →
      int_from_bytes (((data.take 516).drop 2).take 2) ≠ s.expected_block_number →
      (getStep f m a s (.recv data sender)).1.status ≠ .crashedNameError) := by
  constructor
  · intro f m a sender s data hfb hop hblk
    simp only [getStep, hop, hfb, if_neg hblk]
    norm_num
  · intro f m a sender s data fb hs hfb hop hblk
    simp only [getStep, hop, hfb, if_neg hblk]
    norm_num
    by_cases hl : fb.length < 512 <;> simp [hl, hs]

/-- C10 witness: the very first received block having number 2 crashes
the transfer; the same mismatch after one accepted full block does not. -/
theorem C10_confirmed_witness :
    getStep [1] [2] 3 getInit (.recv [0, 3, 0, 2, 7, 7] 4) =
      ({ getInit with status := .crashedNameError }, []) ∧
    (getStep [1] [2] 3
        { getInit with file_block := some (List.replicate 512 0) }
        (.recv [0, 3, 0, 9] 4)).1.status ≠ .crashedNameError :=
  ⟨C10_confirmed.1 [1] [2] 3 4 getInit [0, 3, 0, 2, 7, 7] rfl rfl (by decide),
   C10_confirmed.2 [1] [2] 3 4 _ [0, 3, 0, 9] (List.replicate 512 0) rfl rfl rfl
     (by decide)⟩

/-- C6 amended: for a GET of k full 512-byte blocks plus one final
shorter block, provided k+1 is at most 32767, exactly k+1 DATA packets
are accepted with block numbers 1..k+1, each acknowledged exactly once to
its sender, the written file is the concatenation of the chunks, and the
session completes exactly after the final sub-512-byte block; a rejected
duplicate or out-of-order DATA packet arriving mid-transfer neither
completes the session nor produces any output.  For larger files the
original claim fails, because acknowledging block 32768 raises
struct.error. -/
theorem C6_amended :
    (∀ (f m : Bytes) (a sender : Nat) (full : List Bytes) (lastBlock : Bytes),
      (∀ c ∈ full, c.length = 512) → lastBlock.length < 512 →
      full.length + 1 ≤ 32767 →
      getRun f m a (canonicalEvents 1 (full ++ [lastBlock]) sender) =
        ({ expected_block_number := full.length + 2,
           written := full.flatten ++ lastBlock,
           file_block := some lastBlock, fileDeleted := false, errorMessage := none,
           fileClosed := true, status := .complete },
         (send_request_bytes 1 f m, a) :: ackOutputs 1 (full.length + 1) sender)) ∧
    (∀ (f m : Bytes) (a sender : Nat) (s : GetState) (data : Bytes) (fb : Bytes),
      s.status = .running → s.file_block = some fb → fb.length = 512 →
      int_from_bytes ((data.take 516).take 2) = 3 →
      int_from_bytes (((data.take 516).drop 2).take 2) ≠ s.expected_block_number →
      getStep f m a s (.recv data sender) = (s, [])) := by
  constructor
  · intro f m a sender full lastBlock hfull hlast hk
    rw [canonicalEvents_append sender full [lastBlock] 1]
    simp only [getRun]
    rw [getSteps_append,
      getSteps_canonical_full_start f m a sender 1 full getInit rfl rfl hfull (by omega)]
    rw [canonicalEvents_cons, canonicalEvents_nil]
    rw [getSteps_cons_running f m a _ _ _ rfl]
    rw [getStep_accept f m a sender _ (1 + full.length) lastBlock rfl (by omega) (by omega)]
    rw [if_pos hlast, getSteps_nil]
    simp only [closeAfterLoop]
    rw [if_pos (Or.inl trivial)]
    rw [List.append_nil, ackOutputs_snoc sender full.length 1]
    simp only [Prod.mk.injEq, GetState.mk.injEq, List.nil_append, getInit, and_true, true_and]
    omega
  · intro f m a sender s data fb hs hfb hlen hop hblk
    have hnl : ¬ fb.length < 512 := by omega
    simp only [getStep, hop, hfb]
    rw [if_neg hblk, if_neg hnl]
    norm_num

/-- C6 witness: a file of zero full blocks plus one final one-byte block
is accepted and acknowledged once and completes; a mismatched block
arriving while the last accepted payload was full is ignored without
output. -/
theorem C6_amended_witness :
    getRun [102] [109] 5 (canonicalEvents 1 [[7]] 9) =
      ({ expected_block_number := 2, written := [7], file_block := some [7],
         fileDeleted := false, errorMessage := none, fileClosed := true,
         status := .complete },
       [(send_request_bytes 1 [102] [109], 5), (ackWire 1, 9)]) ∧
    getStep [102] [109] 5
      { expected_block_number := 1, written := [], file_block := some (List.replicate 512 0),
        fileDeleted := false, errorMessage := none, fileClosed := false, status := .running }
      (.recv [0, 3, 0, 9] 4) =
      ({ expected_block_number := 1, written := [], file_block := some (List.replicate 512 0),
         fileDeleted := false, errorMessage := none, fileClosed := false, status := .running },
       []) :=
  ⟨C6_amended.1 [102] [109] 5 9 [] [7] (fun c hc => (List.not_mem_nil c hc).elim)
     (by decide) (by decide),
   C6_amended.2 [102] [109] 5 4 _ [0, 3, 0, 9] (List.replicate 512 0) rfl rfl
     (List.length_replicate 512 0) rfl (by decide)⟩

set_option maxRecDepth 8000 in
/-- C6: the claim as stated fails for a file of 32768 full blocks plus a
final empty block: block numbers are encoded with the signed pack format,
so acknowledging block 32768 raises struct.error and the session crashes
instead of accepting all 32769 blocks and completing. -/
theorem C6_counterexample :
    ((getRun [102] [109] 0
        (canonicalEvents 1
          (List.replicate 32768 (List.replicate 512 0) ++ [[]]) 9)).1).status
      = GetStatus.crashedStructError ∧
    GetStatus.crashedStructError ≠ GetStatus.complete := by
  constructor
  · rw [List.replicate_succ' 32767 (List.replicate 512 0), List.append_assoc]
    rw [canonicalEvents_append 9 (List.replicate 32767 (List.replicate 512 0)) _ 1]
    simp only [getRun, List.length_replicate]
    rw [getSteps_append,
      getSteps_canonical_full_start [102] [109] 0 9 1
        (List.replicate 32767 (List.replicate 512 0)) getInit rfl rfl
        (fun c hc => by rw [List.eq_of_mem_replicate hc]; exact List.length_replicate 512 0)
        (by simp only [List.length_replicate]; omega)]
    rw [List.singleton_append, canonicalEvents_cons]
    rw [List.length_replicate 32767 (List.replicate 512 0)]
    rw [getSteps_cons_running [102] [109] 0 _ _ _ rfl]
    rw [getStep_accept_crash [102] [109] 0 9 _ (1 + 32767) (List.replicate 512 0) rfl
      (by norm_num) (by norm_num) (le_of_eq (List.length_replicate 512 0))]
    rw [getSteps_not_running [102] [109] 0 _ _ (by decide)]
    rfl
  · decide

end TFTP
